import Mathlib

/-!
# sshsrv: endpoint resolution and ssh argument assembly

A shallow embedding of `src/main.go`.

* `GetSSHEndpoint` (main.go 27-65) asks the resolver for the SRV records of
  `_ssh._tcp.<hostname>` and returns either the first record's target (with the
  trailing root dots trimmed) and port, or the bare hostname and port 22.
* `main` (main.go 82-113) resolves the first positional argument and builds the
  argument vector of the `ssh` child process.

The resolver `net.LookupSRV` is an external collaborator: it is a parameter of the
model, a function from `(service, proto, name)` to the triple the Go call returns.
Go's `uint16` is modelled as a natural number below `2 ^ 16`; no arithmetic is done
on ports, so no wrap-around occurs.  The `log.Verbosef` calls only write
diagnostics and have no influence on control flow or on the returned values; they
are left out.  `log.Fatal` prints and terminates the process; it is modelled as a
distinct outcome that carries no result.
-/

namespace Sshsrv

/-! ## Data model -/

/-- The service name of main.go line 15. -/
def serviceName : String := "ssh"

/-- The default port of main.go line 16. -/
def defaultPort : Nat := 22

/-- Number of values of a Go `uint16`. -/
def uint16Size : Nat := 2 ^ 16

/-- Go's `net.SRV`: one SRV record. The three numeric fields are `uint16`. -/
structure SRV where
  Target : String
  Port : Nat
  Priority : Nat
  Weight : Nat
deriving DecidableEq, Repr

/-- A record is well formed when its numeric fields fit Go's `uint16`. -/
def SRV.WellFormed (r : SRV) : Prop :=
  r.Port < uint16Size ∧ r.Priority < uint16Size ∧ r.Weight < uint16Size

instance (r : SRV) : Decidable r.WellFormed := by
  unfold SRV.WellFormed; infer_instance

/-- Go's `net.DNSError`, the error type the resolver uses for every DNS-level
failure: a missing name, a timeout, a server failure, a malformed answer. -/
structure DNSError where
  Err : String
  Name : String
  Server : String
  IsTimeout : Bool
  IsTemporary : Bool
  IsNotFound : Bool
deriving DecidableEq, Repr

/-- A non-nil Go `error` as `GetSSHEndpoint` can tell it apart: its dynamic type is
either `*net.DNSError` or something else. -/
inductive LookupError where
  | dns (e : DNSError)
  | other (msg : String)
deriving DecidableEq, Repr

/-- The triple returned by `net.LookupSRV`; `err = none` is Go's `nil`. -/
structure LookupResult where
  cname : String
  srvAddrs : List SRV
  err : Option LookupError
deriving DecidableEq, Repr

/-- The resolver: `net.LookupSRV service proto name`. -/
abbrev Resolver := String → String → String → LookupResult

/-- The type assertion `err.(*net.DNSError)` of main.go line 30. -/
def LookupError.isDNSError : LookupError → Bool
  | .dns _ => true
  | .other _ => false

/-- The no-record / domain-not-found class: a `*net.DNSError` whose `IsNotFound`
flag is set. -/
def LookupError.isNotFound : LookupError → Bool
  | .dns e => e.IsNotFound
  | .other _ => false

/-- What a call of `GetSSHEndpoint` does: it either returns its three results, or
the process is terminated by `log.Fatal` (main.go line 36) and nothing is
returned. -/
inductive Endpoint where
  | returned (target : String) (port : Nat) (err : Option LookupError)
  | fatal (e : LookupError)
deriving DecidableEq, Repr

/-! ## Library functions used by the program -/

/-- Go's `strings.TrimRight s cutset`: `s` with all trailing code points contained
in `cutset` removed. -/
def TrimRight (s cutset : String) : String :=
  ⟨s.data.rdropWhile (fun c => cutset.data.contains c)⟩

/-- Go's `fmt.Sprintf("-p %d", port)` for an unsigned integer: the text `-p `
followed by the decimal digits of `port`. -/
def sprintfPort (port : Nat) : String :=
  "-p " ++ Nat.repr port

/-! ## The program -/

/-- Resolution of the endpoint, main.go lines 27-65. -/
def GetSSHEndpoint (LookupSRV : Resolver) (hostname : String) : Endpoint :=
  -- line 28
  let res := LookupSRV serviceName "tcp" hostname
  -- lines 29-40: classify the error
  let classified : Except LookupError (Option LookupError) :=
    match res.err with
    | some e => if e.isDNSError then .ok none else .error e
    | none => .ok none
  match classified with
  | .error e => .fatal e
  | .ok err =>
    -- lines 42-61
    match res.srvAddrs with
    | r :: _ => .returned (TrimRight r.Target ".") r.Port err
    | [] => .returned hostname defaultPort err

/-- How a run of `main` ends. -/
inductive MainResult where
  /-- No positional argument: usage text and `os.Exit(1)`, lines 83-86. -/
  | usage (code : Nat)
  /-- The process died in `log.Fatal` inside `GetSSHEndpoint`, line 36. -/
  | fatalInResolve (e : LookupError)
  /-- The branch `if err != nil { log.Fatal(err) }` after the call, lines 90-92. -/
  | fatalAfterResolve (e : LookupError)
  /-- The child could not be started: `cmd.Start` failed, lines 107-110. -/
  | fatalOnStart (path : String) (args : List String)
  /-- The child `path args...` was started and waited for, lines 101-112. -/
  | ran (path : String) (args : List String)
deriving DecidableEq, Repr

/-- The argument list of the child process, main.go lines 97-100: three appends to
an empty slice. -/
def sshArgs (targetHost : String) (targetPort : Nat) (passthrough : List String) :
    List String :=
  let args : List String := []
  let args := args ++ [sprintfPort targetPort]
  let args := args ++ [targetHost]
  let args := args ++ passthrough
  args

/-- The program entry point, main.go lines 82-113.  `flagArgs` is `flag.Args()`, the
positional arguments left after flag parsing; `sshPath` is the path found by
`exec.LookPath` in `init`; `startOk` tells whether `cmd.Start` succeeds. -/
def main (LookupSRV : Resolver) (sshPath : String) (startOk : Bool)
    (flagArgs : List String) : MainResult :=
  match flagArgs with
  | [] => .usage 1
  | host :: rest =>
    -- line 89
    match GetSSHEndpoint LookupSRV host with
    | .fatal e => .fatalInResolve e
    | .returned targetHost targetPort err =>
      -- lines 90-92
      match err with
      | some e => .fatalAfterResolve e
      | none =>
        -- lines 97-110
        let args := sshArgs targetHost targetPort rest
        if startOk then .ran sshPath args else .fatalOnStart sshPath args


/-! ## Specification-side definitions -/

/-- The least priority value occurring in a record list, if any. -/
def minPriority : List SRV → Option Nat
  | [] => none
  | r :: rs =>
    match minPriority rs with
    | none => some r.Priority
    | some m => some (min r.Priority m)

/-- The record the data model calls "highest-priority (then first-listed)": the
first record of the list, in list order, among those of least priority value. -/
def firstOfMinPriority (l : List SRV) : Option SRV :=
  match minPriority l with
  | none => none
  | some m => l.find? (fun r => r.Priority == m)

/-- A record list is sorted by ascending priority. -/
def SortedByPriority (l : List SRV) : Prop :=
  l.Pairwise (fun a b => a.Priority ≤ b.Priority)

/-- Whether the error of a lookup lets `GetSSHEndpoint` return: it is `nil` or a
`*net.DNSError`. -/
def Survives (err : Option LookupError) : Prop :=
  ∀ m, err ≠ some (.other m)

instance (err : Option LookupError) : Decidable (Survives err) :=
  match err with
  | none => isTrue (by intro m h; cases h)
  | some (.dns e) => isTrue (by intro m h; cases h)
  | some (.other m) => isFalse (by intro h; exact h m rfl)

/-- A list of characters ends in the root dot. -/
def EndsInDot (l : List Char) : Prop :=
  l.getLast? = some '.'

/-- The string made of `k` dots. -/
def dots (k : Nat) : String :=
  ⟨List.replicate k '.'⟩

/-- The trimming predicate for the cutset `"."`. -/
def isDot (c : Char) : Bool :=
  (".".data).contains c

/-! ## Sample resolvers used at concrete inputs -/

/-- A resolver that answers every query with the given result. -/
def constResolver (res : LookupResult) : Resolver :=
  fun _ _ _ => res

/-- A not-found answer: no record, `*net.DNSError` with `IsNotFound` set. -/
def notFoundResult : LookupResult :=
  ⟨"", [], some (.dns ⟨"no such host", "_ssh._tcp.", "", false, false, true⟩)⟩

/-- A timeout reported by the resolver as a `*net.DNSError`. -/
def timeoutResult : LookupResult :=
  ⟨"", [], some (.dns ⟨"i/o timeout", "_ssh._tcp.h", "10.0.0.1:53", true, true, false⟩)⟩

/-- Scenario B of the specification: one record with a fully qualified target. -/
def scenarioB : LookupResult :=
  ⟨"_ssh._tcp.srvhost.test.", [⟨"real.srvhost.test.", 2222, 10, 0⟩], none⟩

/-- Scenario C of the specification: two records, priorities 5 and 10. -/
def scenarioC : LookupResult :=
  ⟨"_ssh._tcp.multi.test.", [⟨"a.multi.test.", 2201, 5, 0⟩, ⟨"b.multi.test.", 2202, 10, 0⟩],
    none⟩

/-- A record whose target ends in two dots. -/
def twoDotsResult : LookupResult :=
  ⟨"_ssh._tcp.example.com.", [⟨"sshgw.example.com..", 2222, 0, 0⟩], none⟩

/-- A record that advertises the standard port 22. -/
def port22Result : LookupResult :=
  ⟨"_ssh._tcp.example.com.", [⟨"sshgw.example.com.", 22, 0, 0⟩], none⟩

/-- A record that advertises port 0. -/
def portZeroResult : LookupResult :=
  ⟨"_ssh._tcp.example.com.", [⟨"sshgw.example.com.", 0, 0, 0⟩], none⟩

/-- Records returned together with a `*net.DNSError` (some answers were malformed
and filtered out by the resolver). -/
def partialResult : LookupResult :=
  ⟨"_ssh._tcp.example.com.", [⟨"gw1.example.com.", 2022, 1, 0⟩, ⟨"gw2.example.com.", 2023, 2, 0⟩],
    some (.dns ⟨"DNS response contained records which contain invalid names",
      "example.com", "", false, false, false⟩)⟩

/-! ## Auxiliary lemmas -/

theorem isDot_iff (c : Char) : isDot c = true ↔ c = '.' := by
  have h : (".".data) = ['.'] := rfl
  simp [isDot, h]

theorem TrimRight_dot_data (s : String) :
    (TrimRight s ".").data = s.data.rdropWhile isDot := rfl

/-- Trimming leaves only dots behind. -/
theorem rdropWhile_isDot_append (l : List Char) :
    ∃ k, l = l.rdropWhile isDot ++ List.replicate k '.' := by
  induction l using List.reverseRecOn with
  | nil => exact ⟨0, by simp⟩
  | append_singleton l x ih =>
    by_cases hx : isDot x = true
    · obtain ⟨k, hk⟩ := ih
      refine ⟨k + 1, ?_⟩
      rw [List.rdropWhile_concat_pos _ _ _ hx, List.replicate_succ', ← List.append_assoc, ← hk,
        (isDot_iff x).1 hx]
    · exact ⟨0, by rw [List.rdropWhile_concat_neg _ _ _ hx]; simp⟩

/-- The trimmed list does not end in a dot. -/
theorem rdropWhile_isDot_not_endsInDot (l : List Char) :
    ¬ EndsInDot (l.rdropWhile isDot) := by
  intro h
  unfold EndsInDot at h
  have hne : l.rdropWhile isDot ≠ [] := by
    intro h0; rw [h0] at h; simp at h
  have hlast := List.rdropWhile_last_not isDot l hne
  rw [List.getLast?_eq_getLast _ hne] at h
  have : (l.rdropWhile isDot).getLast hne = '.' := Option.some.inj h
  exact hlast ((isDot_iff _).2 this)

/-- A list that does not end in a dot is left alone. -/
theorem rdropWhile_isDot_eq_self (l : List Char) (h : ¬ EndsInDot l) :
    l.rdropWhile isDot = l := by
  rw [List.rdropWhile_eq_self_iff]
  intro hl hdot
  apply h
  unfold EndsInDot
  rw [List.getLast?_eq_getLast _ hl, (isDot_iff _).1 hdot]

/-- Trimming removes every trailing dot that was appended. -/
theorem rdropWhile_isDot_replicate (l : List Char) (h : ¬ EndsInDot l) (k : Nat) :
    (l ++ List.replicate k '.').rdropWhile isDot = l := by
  induction k with
  | zero => simpa using rdropWhile_isDot_eq_self l h
  | succ k ih =>
    rw [List.replicate_succ', ← List.append_assoc,
      List.rdropWhile_concat_pos _ _ _ ((isDot_iff _).2 rfl), ih]

/-- No initial segment that ends outside a dot is longer than the trimmed list. -/
theorem rdropWhile_isDot_longest (l p : List Char) (hp : p <+: l) (h : ¬ EndsInDot p) :
    p.length ≤ (l.rdropWhile isDot).length := by
  induction l using List.reverseRecOn with
  | nil =>
    have : p = [] := List.prefix_nil.1 hp
    simp [this]
  | append_singleton l x ih =>
    by_cases hx : isDot x = true
    · rw [List.rdropWhile_concat_pos _ _ _ hx]
      rcases List.prefix_concat_iff.1 hp with heq | hpre
      · exfalso
        apply h
        rw [heq, (isDot_iff x).1 hx]
        simp [EndsInDot]
      · exact ih hpre
    · rw [List.rdropWhile_concat_neg _ _ _ hx]
      exact hp.length_le

/-- With records and a surviving error the first record decides the result. -/
theorem GetSSHEndpoint_cons (L : Resolver) (h : String) (r : SRV) (rs : List SRV)
    (hrec : (L serviceName "tcp" h).srvAddrs = r :: rs)
    (herr : Survives (L serviceName "tcp" h).err) :
    GetSSHEndpoint L h = .returned (TrimRight r.Target ".") r.Port none := by
  unfold GetSSHEndpoint
  simp only [hrec]
  cases he : (L serviceName "tcp" h).err with
  | none => rfl
  | some e =>
    cases e with
    | dns d => rfl
    | other m => exact absurd he (herr m)

/-- Without records and with a surviving error the fallback is returned. -/
theorem GetSSHEndpoint_nil (L : Resolver) (h : String)
    (hrec : (L serviceName "tcp" h).srvAddrs = [])
    (herr : Survives (L serviceName "tcp" h).err) :
    GetSSHEndpoint L h = .returned h defaultPort none := by
  unfold GetSSHEndpoint
  simp only [hrec]
  cases he : (L serviceName "tcp" h).err with
  | none => rfl
  | some e =>
    cases e with
    | dns d => rfl
    | other m => exact absurd he (herr m)

/-- An error that is not a `*net.DNSError` is fatal. -/
theorem GetSSHEndpoint_other (L : Resolver) (h : String) (m : String)
    (he : (L serviceName "tcp" h).err = some (.other m)) :
    GetSSHEndpoint L h = .fatal (.other m) := by
  unfold GetSSHEndpoint
  simp only [he]
  rfl

/-- A call that returns had a surviving error. -/
theorem Survives_of_returned (L : Resolver) (h t : String) (p : Nat) (e : Option LookupError)
    (hret : GetSSHEndpoint L h = .returned t p e) : Survives (L serviceName "tcp" h).err := by
  intro m hm
  rw [GetSSHEndpoint_other L h m hm] at hret
  cases hret

/-- Either outcome of a call, by the shape of the lookup error. -/
theorem GetSSHEndpoint_cases (L : Resolver) (h : String) :
    (∃ m, (L serviceName "tcp" h).err = some (.other m) ∧
        GetSSHEndpoint L h = .fatal (.other m)) ∨
      (Survives (L serviceName "tcp" h).err ∧
        ∃ t p, GetSSHEndpoint L h = .returned t p none) := by
  by_cases hs : Survives (L serviceName "tcp" h).err
  · right
    refine ⟨hs, ?_⟩
    cases hrec : (L serviceName "tcp" h).srvAddrs with
    | nil => exact ⟨_, _, GetSSHEndpoint_nil L h hrec hs⟩
    | cons r rs => exact ⟨_, _, GetSSHEndpoint_cons L h r rs hrec hs⟩
  · left
    unfold Survives at hs
    push_neg at hs
    obtain ⟨m, hm⟩ := hs
    exact ⟨m, hm, GetSSHEndpoint_other L h m hm⟩

/-- The least priority is attained in the list and bounds every record. -/
theorem minPriority_spec (l : List SRV) (m : Nat) (hm : minPriority l = some m) :
    (∃ x ∈ l, x.Priority = m) ∧ ∀ y ∈ l, m ≤ y.Priority := by
  induction l generalizing m with
  | nil => simp [minPriority] at hm
  | cons r rs ih =>
    unfold minPriority at hm
    cases hrs : minPriority rs with
    | none =>
      rw [hrs] at hm
      have hr : r.Priority = m := Option.some.inj hm
      cases rs with
      | nil =>
        refine ⟨⟨r, List.mem_cons_self _ _, hr⟩, ?_⟩
        intro y hy
        rw [List.mem_singleton] at hy
        rw [hy, hr]
      | cons r2 rs2 =>
        unfold minPriority at hrs
        cases h2 : minPriority rs2 <;> rw [h2] at hrs <;> cases hrs
    | some m2 =>
      rw [hrs] at hm
      have hmin : min r.Priority m2 = m := Option.some.inj hm
      obtain ⟨⟨x, hx, hxm⟩, hall⟩ := ih m2 hrs
      constructor
      · rcases Nat.le_total r.Priority m2 with hle | hle
        · exact ⟨r, List.mem_cons_self _ _, by rw [← hmin, Nat.min_eq_left hle]⟩
        · exact ⟨x, List.mem_cons_of_mem _ hx, by rw [← hmin, Nat.min_eq_right hle, hxm]⟩
      · intro y hy
        rw [← hmin]
        rcases List.mem_cons.1 hy with hy | hy
        · rw [hy]; exact Nat.min_le_left _ _
        · exact le_trans (Nat.min_le_right _ _) (hall y hy)

/-- In a list sorted by priority the head is the first record of least priority. -/
theorem firstOfMinPriority_sorted (r : SRV) (rs : List SRV)
    (hs : SortedByPriority (r :: rs)) :
    firstOfMinPriority (r :: rs) = some r ∧ ∀ x ∈ r :: rs, r.Priority ≤ x.Priority := by
  have hhead : ∀ x ∈ rs, r.Priority ≤ x.Priority := (List.pairwise_cons.1 hs).1
  have hall : ∀ x ∈ r :: rs, r.Priority ≤ x.Priority := by
    intro x hx
    rcases List.mem_cons.1 hx with hx | hx
    · rw [hx]
    · exact hhead x hx
  refine ⟨?_, hall⟩
  unfold firstOfMinPriority
  cases hm : minPriority (r :: rs) with
  | none =>
    unfold minPriority at hm
    cases h2 : minPriority rs <;> rw [h2] at hm <;> cases hm
  | some m =>
    obtain ⟨⟨x, hx, hxm⟩, hle⟩ := minPriority_spec (r :: rs) m hm
    have h1 : m ≤ r.Priority := hle r (List.mem_cons_self _ _)
    have h2 : r.Priority ≤ m := hxm ▸ hall x hx
    have : r.Priority = m := le_antisymm h2 h1
    simp [List.find?, this]

/-- The child's argument list, unfolded. -/
theorem sshArgs_eq (t : String) (p : Nat) (a : List String) :
    sshArgs t p a = sprintfPort p :: t :: a := rfl

/-! ## Claims -/

/-- C1: for every hostname `h`, the empty one included, when the lookup carries no
SRV record and its error is nil or a not-found DNS error, `GetSSHEndpoint` returns
the target `h` unchanged, the port 22 and a nil error. -/
theorem C1_fallback_returns_hostname_and_22 (L : Resolver) (h : String)
    (hrec : (L serviceName "tcp" h).srvAddrs = [])
    (herr : (L serviceName "tcp" h).err = none ∨
      ∃ e, (L serviceName "tcp" h).err = some (.dns e) ∧ e.IsNotFound = true) :
    GetSSHEndpoint L h = .returned h 22 none := by
  apply GetSSHEndpoint_nil L h hrec
  intro m hm
  rcases herr with h0 | ⟨e, he, _⟩
  · rw [h0] at hm; cases hm
  · rw [he] at hm; cases hm

/-- C1 at the empty hostname with a not-found answer. -/
theorem C1_fallback_witness :
    GetSSHEndpoint (constResolver notFoundResult) "" = .returned "" 22 none :=
  C1_fallback_returns_hostname_and_22 (constResolver notFoundResult) "" rfl
    (Or.inr ⟨_, rfl, rfl⟩)

/-- C3: with at least one SRV record, and whether the lookup reported no error or a
DNS error, the returned port is the `Port` field of the first record; target and
port are the same for any other hostname, resolver and tail of the record list as
long as the first record is the same. -/
theorem C3_port_is_first_record_port (L : Resolver) (h : String) (r : SRV) (rs : List SRV)
    (hrec : (L serviceName "tcp" h).srvAddrs = r :: rs)
    (herr : (L serviceName "tcp" h).err = none ∨
      ∃ e, (L serviceName "tcp" h).err = some (.dns e)) :
    (∃ t, GetSSHEndpoint L h = .returned t r.Port none) ∧
      ∀ (L2 : Resolver) (h2 : String) (rs2 : List SRV),
        (L2 serviceName "tcp" h2).srvAddrs = r :: rs2 →
        Survives (L2 serviceName "tcp" h2).err →
        GetSSHEndpoint L2 h2 = GetSSHEndpoint L h := by
  have hs : Survives (L serviceName "tcp" h).err := by
    intro m hm
    rcases herr with h0 | ⟨e, he⟩
    · rw [h0] at hm; cases hm
    · rw [he] at hm; cases hm
  refine ⟨⟨_, GetSSHEndpoint_cons L h r rs hrec hs⟩, ?_⟩
  intro L2 h2 rs2 hrec2 hs2
  rw [GetSSHEndpoint_cons L h r rs hrec hs, GetSSHEndpoint_cons L2 h2 r rs2 hrec2 hs2]

/-- C3 on records that came with a DNS error. -/
theorem C3_port_witness :
    (∃ t, GetSSHEndpoint (constResolver partialResult) "example.com" =
        .returned t 2022 none) ∧
      ∀ (L2 : Resolver) (h2 : String) (rs2 : List SRV),
        (L2 serviceName "tcp" h2).srvAddrs = ⟨"gw1.example.com.", 2022, 1, 0⟩ :: rs2 →
        Survives (L2 serviceName "tcp" h2).err →
        GetSSHEndpoint L2 h2 = GetSSHEndpoint (constResolver partialResult) "example.com" :=
  C3_port_is_first_record_port (constResolver partialResult) "example.com"
    ⟨"gw1.example.com.", 2022, 1, 0⟩ [⟨"gw2.example.com.", 2023, 2, 0⟩] rfl
    (Or.inr ⟨_, rfl⟩)

/-- C4 as stated fails: a timeout reported as a `*net.DNSError` is outside the
not-found class, yet `GetSSHEndpoint` does not terminate the program: it returns
the fallback endpoint. -/
theorem C4_timeout_not_fatal :
    (∃ e, timeoutResult.err = some e ∧ e.isNotFound = false) ∧
      GetSSHEndpoint (constResolver timeoutResult) "h" = .returned "h" 22 none ∧
      ∀ e, GetSSHEndpoint (constResolver timeoutResult) "h" ≠ .fatal e := by
  refine ⟨⟨_, rfl, rfl⟩, by decide, ?_⟩
  intro e
  have : GetSSHEndpoint (constResolver timeoutResult) "h" = .returned "h" 22 none := by decide
  rw [this]
  intro hc
  cases hc

/-- C4 amended: `GetSSHEndpoint` terminates the program exactly when the lookup error
is non-nil and not a `*net.DNSError`; with a nil error or any `*net.DNSError`
(not-found, timeout, server failure alike) it returns a result with a nil error. -/
theorem C4_fatal_iff_not_DNSError (L : Resolver) (h : String) :
    ((∃ e, GetSSHEndpoint L h = .fatal e) ↔
        ∃ m, (L serviceName "tcp" h).err = some (.other m)) ∧
      ((∃ t p, GetSSHEndpoint L h = .returned t p none) ↔
        ((L serviceName "tcp" h).err = none ∨
          ∃ d, (L serviceName "tcp" h).err = some (.dns d))) := by
  constructor
  · constructor
    · rintro ⟨e, he⟩
      rcases GetSSHEndpoint_cases L h with ⟨m, hm, _⟩ | ⟨_, t, p, hret⟩
      · exact ⟨m, hm⟩
      · rw [hret] at he; cases he
    · rintro ⟨m, hm⟩
      exact ⟨_, GetSSHEndpoint_other L h m hm⟩
  · constructor
    · rintro ⟨t, p, hret⟩
      have hs := Survives_of_returned L h t p none hret
      cases he : (L serviceName "tcp" h).err with
      | none => exact Or.inl rfl
      | some e =>
        cases e with
        | dns d => exact Or.inr ⟨d, rfl⟩
        | other m => exact absurd he (hs m)
    · intro herr
      rcases GetSSHEndpoint_cases L h with ⟨m, hm, _⟩ | ⟨_, t, p, hret⟩
      · rcases herr with h0 | ⟨d, hd⟩
        · rw [h0] at hm; cases hm
        · rw [hd] at hm; cases hm
      · exact ⟨t, p, hret⟩

/-- C9: `GetSSHEndpoint` never returns a non-nil error: every call either ends in
`log.Fatal` or returns with a nil error, so `main` never takes the
`if err != nil` branch that follows the call. -/
theorem C9_returned_error_is_nil (L : Resolver) (h : String) :
    ((∃ e, GetSSHEndpoint L h = .fatal e) ∨ ∃ t p, GetSSHEndpoint L h = .returned t p none) ∧
      (∀ t p e, GetSSHEndpoint L h = .returned t p e → e = none) ∧
      ∀ (L2 : Resolver) (sshPath : String) (startOk : Bool) (flagArgs : List String)
        (e : LookupError), main L2 sshPath startOk flagArgs ≠ .fatalAfterResolve e := by
  have hcases := GetSSHEndpoint_cases L h
  refine ⟨?_, ?_, ?_⟩
  · rcases hcases with ⟨m, _, hm⟩ | ⟨_, t, p, hret⟩
    · exact Or.inl ⟨_, hm⟩
    · exact Or.inr ⟨t, p, hret⟩
  · intro t p e hret
    rcases hcases with ⟨m, _, hm⟩ | ⟨_, t2, p2, hret2⟩
    · rw [hm] at hret; cases hret
    · rw [hret2] at hret
      cases hret
      rfl
  · intro L2 sshPath startOk flagArgs e
    cases flagArgs with
    | nil => simp [main]
    | cons host rest =>
      rcases GetSSHEndpoint_cases L2 host with ⟨m, _, hm⟩ | ⟨_, t, p, hret⟩
      · simp [main, hm]
      · simp only [main, hret]
        cases startOk <;> simp

/-- C2 as stated fails: a first target ending in two dots loses both of them, so the
returned target is `sshgw.example.com` and not `sshgw.example.com.`. -/
theorem C2_two_trailing_dots_both_removed :
    GetSSHEndpoint (constResolver twoDotsResult) "example.com" =
        .returned "sshgw.example.com" 2222 none ∧
      GetSSHEndpoint (constResolver twoDotsResult) "example.com" ≠
        .returned "sshgw.example.com." 2222 none := by
  decide

/-- C2 amended: with at least one SRV record the returned target is the first
record's target with every trailing dot removed: the target unchanged when it does
not end in a dot, the target without its dot when it ends in exactly one, and the
part before the dots when it ends in several. -/
theorem C2_target_trailing_dots_removed (L : Resolver) (h : String) (r : SRV) (rs : List SRV)
    (hrec : (L serviceName "tcp" h).srvAddrs = r :: rs)
    (herr : Survives (L serviceName "tcp" h).err) :
    ∃ t, GetSSHEndpoint L h = .returned t r.Port none ∧
      (¬ EndsInDot r.Target.data → t = r.Target) ∧
      (∀ s : String, ¬ EndsInDot s.data → r.Target = s ++ "." → t = s) ∧
      (∀ (s : String) (k : Nat), ¬ EndsInDot s.data → r.Target = s ++ dots k → t = s) := by
  refine ⟨_, GetSSHEndpoint_cons L h r rs hrec herr, ?_, ?_, ?_⟩
  · intro hnd
    apply String.ext
    rw [TrimRight_dot_data]
    exact rdropWhile_isDot_eq_self _ hnd
  · intro s hs heq
    apply String.ext
    rw [TrimRight_dot_data, heq]
    exact rdropWhile_isDot_replicate s.data hs 1
  · intro s k hs heq
    apply String.ext
    rw [TrimRight_dot_data, heq]
    exact rdropWhile_isDot_replicate s.data hs k

/-- C2 amended, on scenario B of the specification. -/
theorem C2_target_witness :
    ∃ t, GetSSHEndpoint (constResolver scenarioB) "srvhost.test" = .returned t 2222 none ∧
      (¬ EndsInDot "real.srvhost.test.".data → t = "real.srvhost.test.") ∧
      (∀ s : String, ¬ EndsInDot s.data → "real.srvhost.test." = s ++ "." → t = s) ∧
      (∀ (s : String) (k : Nat), ¬ EndsInDot s.data →
        "real.srvhost.test." = s ++ dots k → t = s) :=
  C2_target_trailing_dots_removed (constResolver scenarioB) "srvhost.test"
    ⟨"real.srvhost.test.", 2222, 10, 0⟩ [] rfl (by decide)

/-- C10: with at least one SRV record the returned target is the longest initial
segment of the first record's target that does not end in a dot: the target is the
returned one followed by some number of dots, the returned one does not end in a
dot, no initial segment ending outside a dot is longer, and the returned target is
empty exactly when the first record's target consists of dots only (or is empty). -/
theorem C10_target_is_longest_dotless_initial_segment (L : Resolver) (h : String) (r : SRV)
    (rs : List SRV) (hrec : (L serviceName "tcp" h).srvAddrs = r :: rs)
    (herr : Survives (L serviceName "tcp" h).err) :
    ∃ t, GetSSHEndpoint L h = .returned t r.Port none ∧
      (∃ k, r.Target = t ++ dots k) ∧
      t.data <+: r.Target.data ∧
      ¬ EndsInDot t.data ∧
      (∀ p : String, p.data <+: r.Target.data → ¬ EndsInDot p.data →
        p.data.length ≤ t.data.length) ∧
      (t = "" ↔ ∀ c ∈ r.Target.data, c = '.') := by
  refine ⟨_, GetSSHEndpoint_cons L h r rs hrec herr, ?_, ?_, ?_, ?_, ?_⟩
  · obtain ⟨k, hk⟩ := rdropWhile_isDot_append r.Target.data
    refine ⟨k, ?_⟩
    apply String.ext
    rw [String.data_append, TrimRight_dot_data]
    exact hk
  · rw [TrimRight_dot_data]
    exact List.rdropWhile_prefix isDot r.Target.data
  · rw [TrimRight_dot_data]
    exact rdropWhile_isDot_not_endsInDot _
  · intro p hp hnd
    rw [TrimRight_dot_data]
    exact rdropWhile_isDot_longest _ _ hp hnd
  · rw [String.ext_iff, TrimRight_dot_data]
    show List.rdropWhile isDot r.Target.data = [] ↔ _
    rw [List.rdropWhile_eq_nil_iff]
    constructor
    · intro hall c hc
      exact (isDot_iff c).1 (hall c hc)
    · intro hall c hc
      exact (isDot_iff c).2 (hall c hc)

/-- C10 on a record whose target is the root name `.` alone. -/
theorem C10_target_witness :
    ∃ t, GetSSHEndpoint (constResolver ⟨"", [⟨".", 0, 0, 0⟩], none⟩) "example.com" =
        .returned t 0 none ∧
      (∃ k, "." = t ++ dots k) ∧
      t.data <+: ".".data ∧
      ¬ EndsInDot t.data ∧
      (∀ p : String, p.data <+: ".".data → ¬ EndsInDot p.data →
        p.data.length ≤ t.data.length) ∧
      (t = "" ↔ ∀ c ∈ ".".data, c = '.') :=
  C10_target_is_longest_dotless_initial_segment
    (constResolver ⟨"", [⟨".", 0, 0, 0⟩], none⟩) "example.com" ⟨".", 0, 0, 0⟩ [] rfl
    (by decide)

/-- C5: for every resolved endpoint `(t, p)` and passthrough list `a`, `main` hands
the child process exactly the port flag `-p <decimal p>`, then `t`, then `a` in
order: length `2 + len a`, host at index 1, passthrough arguments untouched; for
`("h", 2222)` and `["-A", "-v"]` the list is `["-p 2222", "h", "-A", "-v"]`. -/
theorem C5_ssh_argument_list (L : Resolver) (sshPath host t : String) (p : Nat)
    (a : List String) (hret : GetSSHEndpoint L host = .returned t p none) :
    main L sshPath true (host :: a) = .ran sshPath (["-p " ++ Nat.repr p, t] ++ a) ∧
      main L sshPath false (host :: a) =
        .fatalOnStart sshPath (["-p " ++ Nat.repr p, t] ++ a) ∧
      sshArgs t p a = ["-p " ++ Nat.repr p, t] ++ a ∧
      (sshArgs t p a).length = 2 + a.length ∧
      (sshArgs t p a)[0]? = some ("-p " ++ Nat.repr p) ∧
      (sshArgs t p a)[1]? = some t ∧
      (sshArgs t p a).drop 2 = a ∧
      sshArgs "h" 2222 ["-A", "-v"] = ["-p 2222", "h", "-A", "-v"] := by
  refine ⟨?_, ?_, rfl, ?_, rfl, ?_, rfl, by decide⟩
  · simp only [main, hret]
    rfl
  · simp only [main, hret]
    rfl
  · rw [sshArgs_eq]
    simp only [List.length_cons]
    omega
  · rw [sshArgs_eq]
    simp

/-- C5 on scenario B with two passthrough arguments. -/
theorem C5_ssh_argument_list_witness :
    main (constResolver scenarioB) "/usr/bin/ssh" true ["srvhost.test", "-A", "-v"] =
      .ran "/usr/bin/ssh" ["-p 2222", "real.srvhost.test", "-A", "-v"] :=
  (C5_ssh_argument_list (constResolver scenarioB) "/usr/bin/ssh" "srvhost.test"
    "real.srvhost.test" 2222 ["-A", "-v"] (by decide)).1

/-- C6 as stated fails: a lookup that returned a record advertising port 22 makes
`GetSSHEndpoint` return port 22 although a record was found. -/
theorem C6_port_22_with_record :
    GetSSHEndpoint (constResolver port22Result) "example.com" =
        .returned "sshgw.example.com" 22 none ∧
      ¬ ((22 : Nat) = 22 ↔
        (constResolver port22Result serviceName "tcp" "example.com").srvAddrs = []) := by
  decide

/-- C6 amended: when `GetSSHEndpoint` returns, the port is 22 whenever the lookup
returned no SRV record, a port other than 22 implies that a record was returned,
and the port is 22 exactly when no record was returned or the first record's `Port`
is itself 22. -/
theorem C6_port_22_iff (L : Resolver) (h t : String) (p : Nat) (e : Option LookupError)
    (hret : GetSSHEndpoint L h = .returned t p e) :
    ((L serviceName "tcp" h).srvAddrs = [] → p = 22) ∧
      (p ≠ 22 → (L serviceName "tcp" h).srvAddrs ≠ []) ∧
      (p = 22 ↔ ((L serviceName "tcp" h).srvAddrs = [] ∨
        ∃ r rs, (L serviceName "tcp" h).srvAddrs = r :: rs ∧ r.Port = 22)) := by
  have hs := Survives_of_returned L h t p e hret
  cases hrec : (L serviceName "tcp" h).srvAddrs with
  | nil =>
    rw [GetSSHEndpoint_nil L h hrec hs] at hret
    cases hret
    simp [defaultPort]
  | cons r rs =>
    rw [GetSSHEndpoint_cons L h r rs hrec hs] at hret
    cases hret
    simp

/-- C6 amended, on scenario B: the port 2222 differs from 22 and a record exists. -/
theorem C6_port_22_iff_witness :
    ((constResolver scenarioB serviceName "tcp" "srvhost.test").srvAddrs = [] →
        (2222 : Nat) = 22) ∧
      ((2222 : Nat) ≠ 22 →
        (constResolver scenarioB serviceName "tcp" "srvhost.test").srvAddrs ≠ []) ∧
      ((2222 : Nat) = 22 ↔
        ((constResolver scenarioB serviceName "tcp" "srvhost.test").srvAddrs = [] ∨
          ∃ r rs, (constResolver scenarioB serviceName "tcp" "srvhost.test").srvAddrs =
            r :: rs ∧ r.Port = 22)) :=
  C6_port_22_iff (constResolver scenarioB) "srvhost.test" "real.srvhost.test" 2222 none
    (by decide)

/-- C7: for a non-empty SRV list sorted by ascending priority the returned target
and port come from a record whose priority is at most that of every record of the
list, and that record is the first-listed one among the records of least
priority. -/
theorem C7_sorted_list_selects_first_of_least_priority (L : Resolver) (h : String)
    (hne : (L serviceName "tcp" h).srvAddrs ≠ [])
    (hsorted : SortedByPriority (L serviceName "tcp" h).srvAddrs)
    (herr : Survives (L serviceName "tcp" h).err) :
    ∃ r, firstOfMinPriority (L serviceName "tcp" h).srvAddrs = some r ∧
      GetSSHEndpoint L h = .returned (TrimRight r.Target ".") r.Port none ∧
      (∀ x ∈ (L serviceName "tcp" h).srvAddrs, r.Priority ≤ x.Priority) ∧
      ∃ i : Nat, (L serviceName "tcp" h).srvAddrs[i]? = some r ∧
        ∀ j : Nat, j < i → ∀ x : SRV, (L serviceName "tcp" h).srvAddrs[j]? = some x →
          x.Priority ≠ r.Priority := by
  cases hrec : (L serviceName "tcp" h).srvAddrs with
  | nil => exact absurd hrec hne
  | cons r rs =>
    rw [hrec] at hsorted
    obtain ⟨hfirst, hmin⟩ := firstOfMinPriority_sorted r rs hsorted
    refine ⟨r, hfirst, GetSSHEndpoint_cons L h r rs hrec herr, hmin, 0, by simp, ?_⟩
    intro j hj
    exact absurd hj (Nat.not_lt_zero j)

/-- C7 on scenario C: of two records with priorities 5 and 10 the priority-5 record
is the one selected. -/
theorem C7_sorted_list_witness :
    ∃ r, firstOfMinPriority scenarioC.srvAddrs = some r ∧
      GetSSHEndpoint (constResolver scenarioC) "multi.test" =
        .returned (TrimRight r.Target ".") r.Port none ∧
      (∀ x ∈ scenarioC.srvAddrs, r.Priority ≤ x.Priority) ∧
      ∃ i : Nat, scenarioC.srvAddrs[i]? = some r ∧
        ∀ j : Nat, j < i → ∀ x : SRV, scenarioC.srvAddrs[j]? = some x → x.Priority ≠ r.Priority :=
  C7_sorted_list_selects_first_of_least_priority (constResolver scenarioC) "multi.test"
    (by decide) (by simp [SortedByPriority, constResolver, scenarioC]) (by decide)

/-- C8 as stated fails: a lookup whose first record carries `Port = 0` makes
`GetSSHEndpoint` return port 0, outside the range 1 to 65535. -/
theorem C8_port_zero_returned :
    (∀ r ∈ portZeroResult.srvAddrs, r.WellFormed) ∧
      GetSSHEndpoint (constResolver portZeroResult) "example.com" =
        .returned "sshgw.example.com" 0 none ∧
      ¬ (1 ≤ (0 : Nat) ∧ (0 : Nat) ≤ 65535) := by
  refine ⟨?_, by decide, by decide⟩
  intro r hr
  simp only [portZeroResult, List.mem_singleton] at hr
  rw [hr]
  decide

/-- C8 amended: when `GetSSHEndpoint` returns and the records are well-formed
`uint16` records, the port lies in the range 0 to 65535; it is 22 when no record was
returned and the first record's `Port` otherwise, so it is 0 exactly when a record
was returned whose `Port` is 0, and at least 1 in every other case. -/
theorem C8_port_range (L : Resolver) (h t : String) (p : Nat) (e : Option LookupError)
    (hwf : ∀ r ∈ (L serviceName "tcp" h).srvAddrs, r.WellFormed)
    (hret : GetSSHEndpoint L h = .returned t p e) :
    p ≤ 65535 ∧
      ((L serviceName "tcp" h).srvAddrs = [] → p = 22) ∧
      (∀ r rs, (L serviceName "tcp" h).srvAddrs = r :: rs → p = r.Port) ∧
      (p = 0 ↔ ∃ r rs, (L serviceName "tcp" h).srvAddrs = r :: rs ∧ r.Port = 0) := by
  have hs := Survives_of_returned L h t p e hret
  cases hrec : (L serviceName "tcp" h).srvAddrs with
  | nil =>
    rw [GetSSHEndpoint_nil L h hrec hs] at hret
    cases hret
    simp [defaultPort]
  | cons r rs =>
    rw [GetSSHEndpoint_cons L h r rs hrec hs] at hret
    cases hret
    have hr : r.WellFormed := hwf r (by rw [hrec]; exact List.mem_cons_self _ _)
    have hlt : r.Port < 65536 := hr.1
    refine ⟨by omega, by simp, ?_, ?_⟩
    · intro r2 rs2 heq
      cases heq
      rfl
    · simp

/-- C8 amended, on scenario B. -/
theorem C8_port_range_witness :
    (2222 : Nat) ≤ 65535 ∧
      ((constResolver scenarioB serviceName "tcp" "srvhost.test").srvAddrs = [] →
        (2222 : Nat) = 22) ∧
      (∀ r rs, (constResolver scenarioB serviceName "tcp" "srvhost.test").srvAddrs = r :: rs →
        2222 = r.Port) ∧
      ((2222 : Nat) = 0 ↔ ∃ r rs,
        (constResolver scenarioB serviceName "tcp" "srvhost.test").srvAddrs = r :: rs ∧
          r.Port = 0) :=
  C8_port_range (constResolver scenarioB) "srvhost.test" "real.srvhost.test" 2222 none
    (by
      intro r hr
      have hr2 : r = ⟨"real.srvhost.test.", 2222, 10, 0⟩ := by
        simpa [constResolver, scenarioB] using hr
      rw [hr2]
      decide)
    (by decide)

end Sshsrv
